import Mathlib

/-!
Shallow embedding of the inventory management system core
(`src/main.py`, classes `User`, `Product`, `InventorySystem`).

Python dicts preserve insertion order; they are modelled as association
lists (`List (k × v)`): subscript read is `dictGet`, the `in` test is
`dictContains`, assignment `d[k] = v` is `dictInsert` (replace in place
when the key exists, append otherwise), `del d[k]` is `dictErase`, and
attribute mutation of a stored record is `dictSet` (replace in place).

`datetime.now()` is modelled by an explicit `now : Nat` argument to every
operation that stamps `last_updated`.  The SHA-256 digest
(`hashlib.sha256(...).hexdigest()`) is modelled by an arbitrary function
`hash : String → String` passed to the operations that hash passwords.
Python exceptions (`PermissionError`, `ValueError`) become the
`OpError` values of an `Except` result; since every `raise` in the
source happens before any mutation, each operation returns the
(unchanged) state alongside the error.
-/

set_option autoImplicit false

namespace Inv

universe u v

/-- Read a key from an insertion-ordered dict (`d[k]` / `d.get(k)`). -/
def dictGet {α : Type u} {β : Type v} [DecidableEq α] (d : List (α × β)) (k : α) : Option β :=
  (d.find? fun p => decide (p.1 = k)).map Prod.snd

/-- Membership test on an insertion-ordered dict (`k in d`). -/
def dictContains {α : Type u} {β : Type v} [DecidableEq α] (d : List (α × β)) (k : α) : Bool :=
  d.any fun p => decide (p.1 = k)

/-- Replace the value stored at `k` in place, leaving other entries and all
positions unchanged (mutating the record held at an existing key). -/
def dictSet {α : Type u} {β : Type v} [DecidableEq α] (d : List (α × β)) (k : α) (v : β) :
    List (α × β) :=
  d.map fun p => if p.1 = k then (k, v) else p

/-- Dict assignment `d[k] = v`: replace in place when `k` is present,
append a new entry otherwise (Python 3.7+ dict semantics). -/
def dictInsert {α : Type u} {β : Type v} [DecidableEq α] (d : List (α × β)) (k : α) (v : β) :
    List (α × β) :=
  if dictContains d k then dictSet d k v else d ++ [(k, v)]

/-- Dict deletion `del d[k]`. -/
def dictErase {α : Type u} {β : Type v} [DecidableEq α] (d : List (α × β)) (k : α) :
    List (α × β) :=
  d.filter fun p => decide (p.1 ≠ k)

/-- `class User`: the password field stores the one-way hash of the
password supplied at construction. -/
structure User where
  username : String
  password : String
  role : String
  deriving Repr, DecidableEq

/-- `User.__init__`: hashes the plaintext password before storing it. -/
def User.make (hash : String → String) (username password role : String) : User :=
  { username := username, password := hash password, role := role }

/-- `User.check_password`: hash the supplied password and compare with the
stored hash. -/
def User.check_password (hash : String → String) (u : User) (password : String) : Bool :=
  decide (hash password = u.password)

/-- `class Product`.  `price` and `stock_quantity` are modelled as
integers (arbitrary Python numbers, possibly negative); `last_updated`
is the timestamp supplied at creation or mutation time. -/
structure Product where
  product_id : Nat
  name : String
  category : String
  price : Int
  stock_quantity : Int
  last_updated : Nat
  deriving Repr, DecidableEq

/-- Error kinds raised by the system: `PermissionError` and `ValueError`
with their messages. -/
inductive OpError where
  | permissionDenied : String → OpError
  | notFound : String → OpError
  deriving Repr, DecidableEq

/-- `class InventorySystem`: the mutable state of the system. -/
structure InventorySystem where
  users : List (String × User)
  products : List (Nat × Product)
  current_user : Option User
  stock_threshold : Int
  deriving Repr, DecidableEq

/-- `InventorySystem.add_user`: silently refuses a duplicate username,
otherwise stores a freshly hashed `User` record. -/
def InventorySystem.add_user (s : InventorySystem) (hash : String → String)
    (username password role : String) : Bool × InventorySystem :=
  if dictContains s.users username then (false, s)
  else (true, { s with users := dictInsert s.users username (User.make hash username password role) })

/-- `InventorySystem.__init__` followed by `_initialize_system`: empty
stores, no session, threshold 5, then the two seeded accounts. -/
def InventorySystem.init (hash : String → String) : InventorySystem :=
  let s0 : InventorySystem :=
    { users := [], products := [], current_user := none, stock_threshold := 5 }
  let s1 := (s0.add_user hash "admin" "admin123" "Admin").2
  (s1.add_user hash "user" "user123" "User").2

/-- `InventorySystem.login`: sets `current_user` only when the username
exists and the password hash matches; otherwise returns `false` and
changes nothing. -/
def InventorySystem.login (s : InventorySystem) (hash : String → String)
    (username password : String) : Bool × InventorySystem :=
  match dictGet s.users username with
  | some u =>
      if u.check_password hash password then (true, { s with current_user := some u })
      else (false, s)
  | none => (false, s)

/-- `InventorySystem.add_product`: requires an Admin session, then
assigns `product_id = len(self.products) + 1` and stores the record. -/
def InventorySystem.add_product (s : InventorySystem) (now : Nat)
    (name category : String) (price stock_quantity : Int) :
    Except OpError Bool × InventorySystem :=
  match s.current_user with
  | some u =>
      if u.role = "Admin" then
        let product_id := s.products.length + 1
        let product : Product :=
          { product_id := product_id, name := name, category := category,
            price := price, stock_quantity := stock_quantity, last_updated := now }
        (Except.ok true, { s with products := dictInsert s.products product_id product })
      else (Except.error (.permissionDenied "Only admins can add products"), s)
  | none => (Except.error (.permissionDenied "Only admins can add products"), s)

/-- `InventorySystem.update_product`: requires an Admin session; raises
`ValueError` when the id is absent; otherwise overwrites exactly the
fields passed as non-`None` and refreshes `last_updated`. -/
def InventorySystem.update_product (s : InventorySystem) (now : Nat) (product_id : Nat)
    (name category : Option String) (price stock_quantity : Option Int) :
    Except OpError Bool × InventorySystem :=
  match s.current_user with
  | some u =>
      if u.role = "Admin" then
        match dictGet s.products product_id with
        | some product =>
            let product : Product :=
              { product with
                name := name.getD product.name,
                category := category.getD product.category,
                price := price.getD product.price,
                stock_quantity := stock_quantity.getD product.stock_quantity,
                last_updated := now }
            (Except.ok true, { s with products := dictSet s.products product_id product })
        | none => (Except.error (.notFound "Product not found"), s)
      else (Except.error (.permissionDenied "Only admins can update products"), s)
  | none => (Except.error (.permissionDenied "Only admins can update products"), s)

/-- `InventorySystem.delete_product`: requires an Admin session; raises
`ValueError` when the id is absent; otherwise removes the record. -/
def InventorySystem.delete_product (s : InventorySystem) (product_id : Nat) :
    Except OpError Bool × InventorySystem :=
  match s.current_user with
  | some u =>
      if u.role = "Admin" then
        if dictContains s.products product_id then
          (Except.ok true, { s with products := dictErase s.products product_id })
        else (Except.error (.notFound "Product not found"), s)
      else (Except.error (.permissionDenied "Only admins can delete products"), s)
  | none => (Except.error (.permissionDenied "Only admins can delete products"), s)

/-- `InventorySystem.get_product`: plain dict lookup, `None` when absent. -/
def InventorySystem.get_product (s : InventorySystem) (product_id : Nat) : Option Product :=
  dictGet s.products product_id

/-- `InventorySystem.get_low_stock_products`: every stored product whose
stock is at or below the configured threshold, in catalog order. -/
def InventorySystem.get_low_stock_products (s : InventorySystem) : List Product :=
  (s.products.map Prod.snd).filter fun p => decide (p.stock_quantity ≤ s.stock_threshold)

/-- Concrete stand-in for the digest function, used to evaluate the model
on closed inputs (any function works; the theorems quantify over `hash`). -/
def idHash : String → String := fun s => s

section DictLemmas

variable {α : Type u} {β : Type v} [DecidableEq α]

theorem dictGet_cons (p : α × β) (d : List (α × β)) (k : α) :
    dictGet (p :: d) k = if p.1 = k then some p.2 else dictGet d k := by
  by_cases h : p.1 = k <;> simp [dictGet, List.find?, h]

theorem dictContains_cons (p : α × β) (d : List (α × β)) (k : α) :
    dictContains (p :: d) k = (decide (p.1 = k) || dictContains d k) := by
  simp [dictContains]

theorem dictContains_iff (d : List (α × β)) (k : α) :
    dictContains d k = true ↔ k ∈ d.map Prod.fst := by
  induction d with
  | nil => simp [dictContains]
  | cons p d ih =>
      by_cases h : p.1 = k
      · simp [dictContains_cons, h]
      · simp only [dictContains_cons, ih, List.map_cons, List.mem_cons]
        constructor
        · intro hor
          rcases Bool.or_eq_true_iff.mp hor with he | hm
          · exact absurd (of_decide_eq_true he) h
          · exact Or.inr (ih.mp hm)
        · rintro (e | m)
          · exact absurd e.symm h
          · simp [m, ih.mpr m]

theorem dictGet_isSome_of_contains (d : List (α × β)) (k : α)
    (h : dictContains d k = true) : (dictGet d k).isSome = true := by
  induction d with
  | nil => simp [dictContains] at h
  | cons p d ih =>
      by_cases hk : p.1 = k
      · simp [dictGet_cons, hk]
      · simp [dictContains_cons, hk] at h
        simp [dictGet_cons, hk, ih h]

theorem dictGet_set_self (d : List (α × β)) (k : α) (v : β) (w : β)
    (h : dictGet d k = some w) : dictGet (dictSet d k v) k = some v := by
  induction d with
  | nil => simp [dictGet] at h
  | cons p d ih =>
      by_cases hk : p.1 = k
      · simp [dictSet, dictGet_cons, hk]
      · simp [dictGet_cons, hk] at h
        simpa [dictSet, dictGet_cons, hk] using ih h

theorem dictGet_set_ne (d : List (α × β)) (k : α) (v : β) (q : α)
    (h : q ≠ k) : dictGet (dictSet d k v) q = dictGet d q := by
  induction d with
  | nil => rfl
  | cons p d ih =>
      obtain ⟨a, b⟩ := p
      by_cases hk : a = k
      · subst hk
        have hne : ¬ (a = q) := fun e => h e.symm
        simpa [dictSet, dictGet_cons, hne] using ih
      · by_cases hq : a = q
        · simp [dictSet, dictGet_cons, hk, hq, h]
        · simpa [dictSet, dictGet_cons, hk, hq] using ih

theorem dictGet_erase_self (d : List (α × β)) (k : α) :
    dictGet (dictErase d k) k = none := by
  induction d with
  | nil => rfl
  | cons p d ih =>
      obtain ⟨a, b⟩ := p
      by_cases hk : a = k
      · simpa [dictErase, List.filter_cons, hk] using ih
      · simpa [dictErase, List.filter_cons, hk, dictGet_cons] using ih

theorem dictGet_erase_ne (d : List (α × β)) (k : α) (q : α)
    (h : q ≠ k) : dictGet (dictErase d k) q = dictGet d q := by
  induction d with
  | nil => rfl
  | cons p d ih =>
      obtain ⟨a, b⟩ := p
      by_cases hk : a = k
      · subst hk
        have hne : ¬ (a = q) := fun e => h e.symm
        simpa [dictErase, List.filter_cons, dictGet_cons, hne] using ih
      · by_cases hq : a = q
        · simp [dictErase, List.filter_cons, dictGet_cons, hk, hq, h]
        · simpa [dictErase, List.filter_cons, dictGet_cons, hk, hq] using ih

theorem dictGet_append_fresh (d : List (α × β)) (k : α) (v : β)
    (h : dictContains d k = false) : dictGet (d ++ [(k, v)]) k = some v := by
  induction d with
  | nil => simp [dictGet, List.find?]
  | cons p d ih =>
      obtain ⟨a, b⟩ := p
      have hk : ¬ (a = k) := by
        intro e
        simp [dictContains_cons, e] at h
      rw [dictContains_cons] at h
      simp only [Bool.or_eq_false_iff] at h
      simp [List.cons_append, dictGet_cons, hk, ih h.2]

theorem dictInsert_fresh (d : List (α × β)) (k : α) (v : β)
    (h : dictContains d k = false) : dictInsert d k v = d ++ [(k, v)] := by
  simp [dictInsert, h]

end DictLemmas

/-- Admin session over the freshly initialized system: the state reached
by `login("admin", "admin123")` right after construction. -/
def adminState : InventorySystem :=
  ((InventorySystem.init idHash).login idHash "admin" "admin123").2

/-- The seeded admin record as stored by `_initialize_system` (with the
concrete digest stand-in `idHash`). -/
def adminUser : User :=
  { username := "admin", password := idHash "admin123", role := "Admin" }

/-- A concrete product with low stock (3 ≤ 5), used to evaluate claims. -/
def widget : Product :=
  { product_id := 1, name := "Widget", category := "Tools", price := 9,
    stock_quantity := 3, last_updated := 0 }

/-- A concrete product with ample stock (7 > 5), used to evaluate claims. -/
def gadget : Product :=
  { product_id := 2, name := "Gadget", category := "Hardware", price := 20,
    stock_quantity := 7, last_updated := 0 }

/-- A concrete system state with an Admin session and two catalog
entries, used to evaluate claims on closed inputs. -/
def sampleState : InventorySystem :=
  { users := (InventorySystem.init idHash).users,
    products := [(1, widget), (2, gadget)],
    current_user := some adminUser,
    stock_threshold := 5 }

/-- C7: immediately after construction and before any explicit
registration, the user store holds exactly the account `admin` with the
hash of `admin123` and role Admin and the account `user` with the hash of
`user123` and role User, the catalog is empty, and nobody is logged in. -/
theorem claim_C7 (hash : String → String) :
    (InventorySystem.init hash).users =
      [("admin", { username := "admin", password := hash "admin123", role := "Admin" }),
       ("user", { username := "user", password := hash "user123", role := "User" })] ∧
    (InventorySystem.init hash).products = [] ∧
    (InventorySystem.init hash).current_user = none := by
  exact ⟨rfl, rfl, rfl⟩

/-- C3: while no user is logged in, or while the logged-in user has role
User, each of `add_product`, `update_product` and `delete_product` raises
`PermissionError` and returns the state unchanged (so the catalog is
exactly unchanged). -/
theorem claim_C3 (s : InventorySystem) (now : Nat) (name category : String)
    (price stock : Int) (pid : Nat) (oname ocat : Option String) (oprice ostock : Option Int)
    (h : s.current_user = none ∨ ∃ u, s.current_user = some u ∧ u.role = "User") :
    s.add_product now name category price stock =
      (Except.error (.permissionDenied "Only admins can add products"), s) ∧
    s.update_product now pid oname ocat oprice ostock =
      (Except.error (.permissionDenied "Only admins can update products"), s) ∧
    s.delete_product pid =
      (Except.error (.permissionDenied "Only admins can delete products"), s) := by
  rcases h with h | ⟨u, hu, hrole⟩
  · exact ⟨by simp [InventorySystem.add_product, h],
      by simp [InventorySystem.update_product, h],
      by simp [InventorySystem.delete_product, h]⟩
  · have hne : ¬ (u.role = "Admin") := by rw [hrole]; decide
    exact ⟨by simp [InventorySystem.add_product, hu, hne],
      by simp [InventorySystem.update_product, hu, hne],
      by simp [InventorySystem.delete_product, hu, hne]⟩

/-- C3 witness: every mutating operation fails with `PermissionError` on
the freshly initialized (anonymous) system and leaves it unchanged. -/
theorem claim_C3_witness :
    (InventorySystem.init idHash).add_product 10 "Widget" "Tools" 9 3 =
      (Except.error (.permissionDenied "Only admins can add products"),
        InventorySystem.init idHash) ∧
    (InventorySystem.init idHash).update_product 10 1 none none none (some 2) =
      (Except.error (.permissionDenied "Only admins can update products"),
        InventorySystem.init idHash) ∧
    (InventorySystem.init idHash).delete_product 1 =
      (Except.error (.permissionDenied "Only admins can delete products"),
        InventorySystem.init idHash) :=
  claim_C3 (InventorySystem.init idHash) 10 "Widget" "Tools" 9 3 1
    none none none (some 2) (Or.inl rfl)

/-- C5: registering an existing username returns `false` and leaves the
whole state (in particular the user store) unchanged; registering a fresh
username returns `true` and appends a record holding the one-way hash of
the password and the given role. -/
theorem claim_C5 (s : InventorySystem) (hash : String → String)
    (username password role : String) :
    (dictContains s.users username = true →
      s.add_user hash username password role = (false, s)) ∧
    (dictContains s.users username = false →
      s.add_user hash username password role =
        (true, { s with users := s.users ++
          [(username, { username := username, password := hash password, role := role })] })) := by
  constructor
  · intro h
    simp [InventorySystem.add_user, h]
  · intro h
    rw [InventorySystem.add_user, if_neg (by simp [h]), dictInsert_fresh _ _ _ h]
    rfl

/-- C5 witness: on the seeded store, re-registering `admin` fails and
changes nothing, while registering the fresh name `bob` succeeds and
appends the hashed record. -/
theorem claim_C5_witness :
    (InventorySystem.init idHash).add_user idHash "admin" "x" "User" =
      (false, InventorySystem.init idHash) ∧
    (InventorySystem.init idHash).add_user idHash "bob" "pw" "User" =
      (true, { InventorySystem.init idHash with
        users := (InventorySystem.init idHash).users ++
          [("bob", { username := "bob", password := idHash "pw", role := "User" })] }) :=
  ⟨(claim_C5 (InventorySystem.init idHash) idHash "admin" "x" "User").1 (by decide),
   (claim_C5 (InventorySystem.init idHash) idHash "bob" "pw" "User").2 (by decide)⟩

/-- C9: a login whose username is absent, or whose supplied password
hashes to something other than the stored hash, returns `false` and the
whole state unchanged — in particular `current_user` is untouched, so a
previously authenticated user stays authenticated as themselves. -/
theorem claim_C9 (s : InventorySystem) (hash : String → String) (username password : String)
    (h : dictGet s.users username = none ∨
         ∃ u, dictGet s.users username = some u ∧ hash password ≠ u.password) :
    s.login hash username password = (false, s) := by
  rcases h with h | ⟨u, hu, hne⟩
  · simp [InventorySystem.login, h]
  · simp [InventorySystem.login, hu, User.check_password, hne]

/-- C9 witness: a wrong-password login on a state that already has an
authenticated admin leaves that session (and everything else) intact. -/
theorem claim_C9_witness :
    sampleState.login idHash "user" "wrong" = (false, sampleState) :=
  claim_C9 sampleState idHash "user" "wrong"
    (Or.inr ⟨{ username := "user", password := idHash "user123", role := "User" },
      by decide, by decide⟩)

/-- C8: construction sets the process-wide stock threshold to 5, and in
any state with that threshold the low-stock query returns exactly the
stored products whose stock is at most 5 — a membership characterization,
so the answer set does not depend on insertion order. -/
theorem claim_C8 (s : InventorySystem) (p : Product) :
    (∀ hash, (InventorySystem.init hash).stock_threshold = 5) ∧
    (s.stock_threshold = 5 →
      (p ∈ s.get_low_stock_products ↔
        p ∈ s.products.map Prod.snd ∧ p.stock_quantity ≤ 5)) := by
  refine ⟨fun _ => rfl, fun h5 => ?_⟩
  simp [InventorySystem.get_low_stock_products, List.mem_filter, h5]

/-- C8 witness: in the concrete two-product catalog, the product with
stock 3 is reported by the low-stock query. -/
theorem claim_C8_witness :
    widget ∈ sampleState.get_low_stock_products :=
  ((claim_C8 sampleState widget).2 rfl).mpr ⟨by decide, by decide⟩

/-- C10: deleting a present id under an Admin session succeeds, removes
exactly that record (its id no longer resolves), leaves every other id
resolving to the very same record as before (all fields, `last_updated`
included), and leaves the user store and session untouched. -/
theorem claim_C10 (s : InventorySystem) (pid : Nat) (u : User)
    (hu : s.current_user = some u) (hrole : u.role = "Admin")
    (hp : dictContains s.products pid = true) :
    (s.delete_product pid).1 = Except.ok true ∧
    dictGet (s.delete_product pid).2.products pid = none ∧
    (∀ k, k ≠ pid → dictGet (s.delete_product pid).2.products k = dictGet s.products k) ∧
    (s.delete_product pid).2.users = s.users ∧
    (s.delete_product pid).2.current_user = s.current_user := by
  have hred : s.delete_product pid =
      (Except.ok true, { s with products := dictErase s.products pid }) := by
    simp [InventorySystem.delete_product, hu, hrole, hp]
  rw [hred]
  exact ⟨rfl, dictGet_erase_self _ _, fun k hk => dictGet_erase_ne _ _ _ hk, rfl, rfl⟩

/-- C10 witness: deleting id 1 from the concrete two-product catalog
removes it, keeps id 2 intact, and preserves users and session. -/
theorem claim_C10_witness :
    (sampleState.delete_product 1).1 = Except.ok true ∧
    dictGet (sampleState.delete_product 1).2.products 1 = none ∧
    (∀ k, k ≠ 1 → dictGet (sampleState.delete_product 1).2.products k =
      dictGet sampleState.products k) ∧
    (sampleState.delete_product 1).2.users = sampleState.users ∧
    (sampleState.delete_product 1).2.current_user = sampleState.current_user :=
  claim_C10 sampleState 1 adminUser rfl rfl (by decide)

/-- C4: under an Admin session, updating a present id succeeds: the
record keeps its id, each provided field is overwritten, each omitted
field keeps its prior value, `last_updated` becomes the call time, every
other record is untouched, and users and session are unchanged; updating
an absent id raises `ValueError` ("Product not found") and changes
nothing. -/
theorem claim_C4 (s : InventorySystem) (now : Nat) (pid : Nat)
    (oname ocat : Option String) (oprice ostock : Option Int) (u : User)
    (hu : s.current_user = some u) (hrole : u.role = "Admin") :
    (∀ p, dictGet s.products pid = some p →
      (s.update_product now pid oname ocat oprice ostock).1 = Except.ok true ∧
      dictGet (s.update_product now pid oname ocat oprice ostock).2.products pid =
        some { product_id := p.product_id, name := oname.getD p.name,
               category := ocat.getD p.category, price := oprice.getD p.price,
               stock_quantity := ostock.getD p.stock_quantity, last_updated := now } ∧
      (∀ k, k ≠ pid →
        dictGet (s.update_product now pid oname ocat oprice ostock).2.products k =
          dictGet s.products k) ∧
      (s.update_product now pid oname ocat oprice ostock).2.users = s.users ∧
      (s.update_product now pid oname ocat oprice ostock).2.current_user = s.current_user) ∧
    (dictGet s.products pid = none →
      s.update_product now pid oname ocat oprice ostock =
        (Except.error (.notFound "Product not found"), s)) := by
  constructor
  · intro p hp
    have hred : s.update_product now pid oname ocat oprice ostock =
        (Except.ok true, { s with products := dictSet s.products pid { p with
          name := oname.getD p.name, category := ocat.getD p.category,
          price := oprice.getD p.price, stock_quantity := ostock.getD p.stock_quantity,
          last_updated := now } }) := by
      simp [InventorySystem.update_product, hu, hrole, hp]
    rw [hred]
    exact ⟨rfl, dictGet_set_self _ _ _ _ hp, fun k hk => dictGet_set_ne _ _ _ _ hk, rfl, rfl⟩
  · intro hp
    simp [InventorySystem.update_product, hu, hrole, hp]

/-- C4 witness: updating only the stock of product 1 to 2 at time 99
changes exactly that field and the timestamp, keeps product 2 and the
rest of the state intact; and updating the absent id 17 reports the
not-found error and changes nothing. -/
theorem claim_C4_witness :
    ((sampleState.update_product 99 1 none none none (some 2)).1 = Except.ok true ∧
     dictGet (sampleState.update_product 99 1 none none none (some 2)).2.products 1 =
       some { product_id := 1, name := "Widget", category := "Tools", price := 9,
              stock_quantity := 2, last_updated := 99 } ∧
     (∀ k, k ≠ 1 →
       dictGet (sampleState.update_product 99 1 none none none (some 2)).2.products k =
         dictGet sampleState.products k) ∧
     (sampleState.update_product 99 1 none none none (some 2)).2.users = sampleState.users ∧
     (sampleState.update_product 99 1 none none none (some 2)).2.current_user =
       sampleState.current_user) ∧
    sampleState.update_product 99 17 none none none (some 2) =
      (Except.error (.notFound "Product not found"), sampleState) :=
  ⟨(claim_C4 sampleState 99 1 none none none (some 2) adminUser rfl rfl).1 widget (by decide),
   (claim_C4 sampleState 99 17 none none none (some 2) adminUser rfl rfl).2 (by decide)⟩

/-- C6: a login succeeds exactly when the username resolves to a stored
record whose stored hash equals the hash of the supplied password; hence
after registering a fresh username with some password, logging in with
that password succeeds, and logging in with any password of a different
hash fails. -/
theorem claim_C6 (s : InventorySystem) (hash : String → String)
    (username password : String) :
    ((s.login hash username password).1 = true ↔
      ∃ u, dictGet s.users username = some u ∧ hash password = u.password) ∧
    (∀ uname p q role, dictContains s.users uname = false →
      (((s.add_user hash uname p role).2).login hash uname p).1 = true ∧
      (hash q ≠ hash p →
        (((s.add_user hash uname p role).2).login hash uname q).1 = false)) := by
  constructor
  · cases hg : dictGet s.users username with
    | none => simp [InventorySystem.login, hg]
    | some u =>
        by_cases hc : hash password = u.password
        · simp [InventorySystem.login, hg, User.check_password, hc]
        · simp [InventorySystem.login, hg, User.check_password, hc]
  · intro uname p q role h
    have hget : dictGet (s.add_user hash uname p role).2.users uname =
        some (User.make hash uname p role) := by
      have husers : (s.add_user hash uname p role).2.users =
          s.users ++ [(uname, User.make hash uname p role)] := by
        rw [InventorySystem.add_user, if_neg (by simp [h]), dictInsert_fresh _ _ _ h]
      rw [husers]
      exact dictGet_append_fresh _ _ _ h
    constructor
    · simp [InventorySystem.login, hget, User.check_password, User.make]
    · intro hq
      simp [InventorySystem.login, hget, User.check_password, User.make, hq]

/-- C6 witness: after registering the fresh user `bob` with password
`pw` on the seeded store, logging in as `bob` with `pw` succeeds and
logging in with the differently hashed `qq` fails. -/
theorem claim_C6_witness :
    ((((InventorySystem.init idHash).add_user idHash "bob" "pw" "User").2).login
        idHash "bob" "pw").1 = true ∧
    ((((InventorySystem.init idHash).add_user idHash "bob" "pw" "User").2).login
        idHash "bob" "qq").1 = false := by
  have h := (claim_C6 (InventorySystem.init idHash) idHash "x" "y").2
    "bob" "pw" "qq" "User" (by decide)
  exact ⟨h.1, h.2 (by decide)⟩

/-- C2 counterexample: with an Admin session on the fresh system,
`add_product` with empty name, price −1 and stock −1 returns success and
stores the invalid product, instead of failing with `InvalidArgument`
and adding nothing. -/
theorem claim_C2_counterexample :
    (adminState.add_product 10 "" "Tools" (-1) (-1)).1 = Except.ok true ∧
    dictGet (adminState.add_product 10 "" "Tools" (-1) (-1)).2.products 1 =
      some { product_id := 1, name := "", category := "Tools", price := -1,
             stock_quantity := -1, last_updated := 10 } :=
  ⟨rfl, rfl⟩

/-- C2 (amended): `add_product` under an Admin session performs no
argument validation at all: for every name, category, price and stock —
negative price or stock and empty name included — it returns success and
stores the record as given. -/
theorem claim_C2 (s : InventorySystem) (now : Nat) (name category : String)
    (price stock : Int) (u : User)
    (hu : s.current_user = some u) (hrole : u.role = "Admin") :
    (s.add_product now name category price stock).1 = Except.ok true ∧
    (s.add_product now name category price stock).2.products =
      dictInsert s.products (s.products.length + 1)
        { product_id := s.products.length + 1, name := name, category := category,
          price := price, stock_quantity := stock, last_updated := now } := by
  constructor <;> simp [InventorySystem.add_product, hu, hrole]

/-- C2 witness: the invalid add (empty name, negative price and stock)
under the Admin session goes through and appends the record. -/
theorem claim_C2_witness :
    (adminState.add_product 10 "" "Tools" (-1) (-1)).1 = Except.ok true ∧
    (adminState.add_product 10 "" "Tools" (-1) (-1)).2.products =
      dictInsert adminState.products (adminState.products.length + 1)
        { product_id := adminState.products.length + 1, name := "", category := "Tools",
          price := -1, stock_quantity := -1, last_updated := 10 } :=
  claim_C2 adminState 10 "" "Tools" (-1) (-1) adminUser rfl rfl

/-- C1 counterexample: starting from the fresh system with an Admin
session, add products A (id 1) and B (id 2).  After `delete_product 1`
the catalog holds exactly B under id 2, yet the next add computes
`len(products) + 1 = 2` and stores its new product C under id 2,
overwriting the survivor B.  Likewise after `delete_product 2` the next
add reassigns the deleted id 2.  So a later add does hand out the id of
a surviving product and does reassign a deleted id. -/
theorem claim_C1_counterexample :
    (((adminState.add_product 10 "A" "CatA" 5 3).2.add_product 11 "B" "CatB"
        7 4).2.delete_product 1).2.products =
      [(2, { product_id := 2, name := "B", category := "CatB", price := 7,
             stock_quantity := 4, last_updated := 11 })] ∧
    ((((adminState.add_product 10 "A" "CatA" 5 3).2.add_product 11 "B" "CatB"
        7 4).2.delete_product 1).2.add_product 12 "C" "CatC" 9 6).2.products =
      [(2, { product_id := 2, name := "C", category := "CatC", price := 9,
             stock_quantity := 6, last_updated := 12 })] ∧
    ((((adminState.add_product 10 "A" "CatA" 5 3).2.add_product 11 "B" "CatB"
        7 4).2.delete_product 2).2.add_product 12 "C" "CatC" 9 6).2.products =
      [(1, { product_id := 1, name := "A", category := "CatA", price := 5,
             stock_quantity := 3, last_updated := 10 }),
       (2, { product_id := 2, name := "C", category := "CatC", price := 9,
             stock_quantity := 6, last_updated := 12 })] :=
  ⟨rfl, rfl, rfl⟩

/-- C1 (amended): `add_product` assigns `id = len(products) + 1`.  In any
state whose catalog keys are exactly 1..n — as holds initially and is
preserved by every add as long as no delete has intervened — the assigned
id n+1 is fresh and strictly greater than every existing id, so ids stay
unique and monotonically increasing; after a delete, however, a later add
can reassign the deleted id or the id of a surviving product
(overwriting it), as the counterexample shows. -/
theorem claim_C1 (s : InventorySystem) (now : Nat) (name category : String)
    (price stock : Int) (u : User) (hu : s.current_user = some u) (hrole : u.role = "Admin")
    (hkeys : s.products.map Prod.fst = List.range' 1 s.products.length) :
    (s.products.length + 1) ∉ s.products.map Prod.fst ∧
    (∀ k ∈ s.products.map Prod.fst, k < s.products.length + 1) ∧
    (s.add_product now name category price stock).1 = Except.ok true ∧
    (s.add_product now name category price stock).2.products.map Prod.fst =
      List.range' 1 (s.products.length + 1) := by
  have hmem : ∀ k ∈ s.products.map Prod.fst, k < s.products.length + 1 := by
    intro k hk
    rw [hkeys] at hk
    have := List.mem_range'_1.mp hk
    omega
  have hfresh : (s.products.length + 1) ∉ s.products.map Prod.fst := by
    intro h1
    have := hmem _ h1
    omega
  have hcont : dictContains s.products (s.products.length + 1) = false := by
    by_contra hc
    rw [Bool.not_eq_false] at hc
    exact hfresh ((dictContains_iff _ _).mp hc)
  have hprod : (s.add_product now name category price stock).2.products =
      s.products ++ [(s.products.length + 1, { product_id := s.products.length + 1, name := name, category := category, price := price, stock_quantity := stock, last_updated := now })] := by
    simp [InventorySystem.add_product, hu, hrole, dictInsert_fresh _ _ _ hcont]
  refine ⟨hfresh, hmem, by simp [InventorySystem.add_product, hu, hrole], ?_⟩
  have h1 : 1 + 1 * s.products.length = s.products.length + 1 := by omega
  rw [hprod, List.map_append, hkeys, List.range'_concat, h1]
  simp

/-- C1 witness: on the concrete two-product catalog with keys 1 and 2,
an add under the Admin session hands out the fresh id 3 and the keys
become exactly 1, 2, 3. -/
theorem claim_C1_witness :
    (3 : Nat) ∉ sampleState.products.map Prod.fst ∧
    (∀ k ∈ sampleState.products.map Prod.fst, k < 3) ∧
    (sampleState.add_product 20 "Nut" "Parts" 1 50).1 = Except.ok true ∧
    (sampleState.add_product 20 "Nut" "Parts" 1 50).2.products.map Prod.fst =
      List.range' 1 3 :=
  claim_C1 sampleState 20 "Nut" "Parts" 1 50 adminUser rfl rfl rfl

end Inv
